import Mathlib

/-!
Shallow embedding of the Smart Study Buddy chat client (App.tsx, ChatInterface.tsx,
Sidebar.tsx).  The client keeps a conversation log, a session identifier, an
upload-notification list and two in-flight flags; every handler issues at most one
network call.  Each handler below is translated from the corresponding TypeScript
function; asynchronous completions (fetch results) are passed in explicitly as
outcome values, and side effects (network calls, alerts, console errors) are
returned as an explicit effect list.
-/

namespace StudyBuddy

/-- Conversation entry (interface `Message`).  `id` is `Date.now().toString()` and
`timestamp` is the `Date` creation instant, both modelled from a millisecond clock
reading passed in as a `Nat`.  `response` is an `Option String`: the untyped
JavaScript runtime can store `undefined` (modelled `none`) in this field even
though the declared type is `string`. -/
structure Message where
  id : String
  query : String
  response : Option String
  timestamp : Nat
  deriving DecidableEq

/-- Upload notification entry (interface `UploadStatus`). -/
structure UploadStatus where
  id : String
  filename : String
  message : String
  pagesExtracted : Nat
  chunksCreated : Nat
  timestamp : Nat
  deriving DecidableEq

/-- One `{file, summary, pages?}` record of a summary envelope (interface `Summary`). -/
structure Summary where
  file : String
  summary : String
  pages : Option (List Nat)
  deriving DecidableEq

/-- One `concept_search` result (interface `SearchResult`).  `relevance_score` is a
JavaScript number of which only the decimal rendering interpolated into the output
string is ever used, so it is carried as that rendering. -/
structure SearchResult where
  file : String
  page : Nat
  relevance_score : String
  preview_summary : String
  deriving DecidableEq

/-- One `serp_fallback` result (interface `SerpResult`); `snippet` is optional. -/
structure SerpResult where
  title : String
  link : String
  snippet : Option String
  deriving DecidableEq

/-- The dynamic JSON envelope returned by `POST /api/query/`.  A field that is
absent from the payload is `none`.  `serialized` carries `JSON.stringify(data)`,
the serialized form of the whole payload, used only by the fallback branch. -/
structure Envelope where
  type : Option String
  summaries : Option (List Summary)
  expert_summary : Option String
  core_keyword : Option String
  results : Option (List SearchResult)
  serp_results : Option (List SerpResult)
  response : Option String
  serialized : String
  deriving DecidableEq

/-- JavaScript template-literal interpolation of a possibly-absent string field:
an absent (`undefined`) value prints as the text `undefined`. -/
def jsUndef : Option String → String
  | some s => s
  | none => "undefined"

/-- Rendering of one summary in the `full_pdf_summary` branch. -/
def fullSummaryBlock (s : Summary) : String :=
  "**" ++ s.file ++ "**\n\n" ++ s.summary

/-- Interpolation of `s.pages?.join(', ')`: absent pages print as `undefined`. -/
def pagesJoined : Option (List Nat) → String
  | some ps => String.intercalate ", " (ps.map toString)
  | none => "undefined"

/-- Rendering of one summary in the `page_summary` branch. -/
def pageSummaryBlock (s : Summary) : String :=
  "**" ++ s.file ++ " - Pages " ++ pagesJoined s.pages ++ "**\n\n" ++ s.summary

/-- Rendering of the idx-th `concept_search` result. -/
def searchResultItem (p : Nat × SearchResult) : String :=
  toString (p.1 + 1) ++ ". **" ++ p.2.file ++ " - Page " ++ toString p.2.page ++
    "** (Relevance: " ++ p.2.relevance_score ++ ")\n" ++ p.2.preview_summary

/-- JavaScript `r.snippet || ''`: absent or empty snippet renders as empty. -/
def snippetOrEmpty : Option String → String
  | some s => s
  | none => ""

/-- Rendering of the idx-th `serp_fallback` result. -/
def serpResultItem (p : Nat × SerpResult) : String :=
  toString (p.1 + 1) ++ ". [" ++ p.2.title ++ "](" ++ p.2.link ++ ")\n" ++
    snippetOrEmpty p.2.snippet

/-- Preamble of the `concept_search` branch. -/
def conceptPreamble (e k : String) : String :=
  "**Expert Summary:**\n" ++ e ++ "\n\n**Core Keyword:** " ++ k ++
    "\n\n**Relevant Results:**\n\n"

/-- Preamble of the `serp_fallback` branch. -/
def serpPreamble (e k : String) : String :=
  "**Expert Summary:**\n" ++ e ++ "\n\n**Core Keyword:** " ++ k ++
    "\n\n**Web Results:**\n\n"

/-- Body of the `serp_fallback` branch:
`data.serp_results?.map(...).join('\n\n') || 'No results found.'`.
Optional chaining makes the whole chain `undefined` when the list is absent, and
the empty join of an empty list is falsy; both cases fall back to the literal. -/
def serpBody : Option (List SerpResult) → String
  | none => "No results found."
  | some rs =>
    let joined := String.intercalate "\n\n" (rs.enum.map serpResultItem)
    if joined = "" then "No results found." else joined

/-- Fallback of the final branch: `data.response || JSON.stringify(data)`.  An
absent or empty (falsy) `response` field yields the serialized payload. -/
def rawFallback (env : Envelope) : String :=
  match env.response with
  | some r => if r = "" then env.serialized else r
  | none => env.serialized

/-- Response-shape dispatch of `handleSubmitQuery` (App.tsx): synthesizes the
display text from the backend envelope.  `Except.error` models a thrown
`TypeError` (calling `.map` on an absent field); `Except.ok none` models the
JavaScript value `undefined` being assigned to `responseText` (the `error` branch
with an absent `response` field). -/
def synthesizeResponse (env : Envelope) : Except String (Option String) :=
  if env.type = some "full_pdf_summary" then
    match env.summaries with
    | none => Except.error "TypeError: data.summaries is undefined"
    | some l =>
      Except.ok (some (String.intercalate "\n\n---\n\n" (l.map fullSummaryBlock)))
  else if env.type = some "page_summary" then
    match env.summaries with
    | none => Except.error "TypeError: data.summaries is undefined"
    | some l =>
      Except.ok (some (String.intercalate "\n\n---\n\n" (l.map pageSummaryBlock)))
  else if env.type = some "concept_search" then
    match env.results with
    | none => Except.error "TypeError: data.results is undefined"
    | some l =>
      Except.ok (some (conceptPreamble (jsUndef env.expert_summary) (jsUndef env.core_keyword) ++
        String.intercalate "\n\n" (l.enum.map searchResultItem)))
  else if env.type = some "serp_fallback" then
    Except.ok (some (serpPreamble (jsUndef env.expert_summary) (jsUndef env.core_keyword) ++
      serpBody env.serp_results))
  else if env.type = some "error" then
    Except.ok env.response
  else
    Except.ok (some (rawFallback env))

/-- Fixed warning appended to the conversation when the query pipeline throws
(network error or synthesis `TypeError`), from the `catch` of `handleSubmitQuery`. -/
def queryErrorWarning : String :=
  "⚠️ An error occurred while processing your query. Please try again."

/-- Console message of the missing-session guard of `handleSubmitQuery`. -/
def noSessionError : String := "No session ID available"

/-- Blocking alert shown by the `catch` of `handleFileUpload`. -/
def uploadFailAlert : String := "Failed to upload PDF. Please try again."

/-- Alert shown when the selected file is not a PDF. -/
def notPdfAlert : String := "Please select a PDF file"

/-- Initial processing status message (also re-set when the cycle starts). -/
def msgThinking : String := "🔍 Thinking deeply about your question..."

/-- Status message scheduled at 30 s. -/
def msgSkimming : String := "📚 Skimming through your study materials..."

/-- Status message scheduled at 90 s. -/
def msgAlmostThere : String := "⏳ Sorry for the wait — almost there!"

/-- Status message scheduled at 210 s. -/
def msgHangTight : String := "🤖 Even I’m trying my best... hang tight, I’ll be ready soon!"

/-- The three timeouts scheduled by the `useEffect` when `isProcessingQuery`
becomes true: delay in milliseconds paired with the message each one sets. -/
def statusTimers : List (Nat × String) :=
  [(30 * 1000, msgSkimming), (90 * 1000, msgAlmostThere), (210 * 1000, msgHangTight)]

/-- Observable side effects emitted by the handlers: the three backend calls,
`alert`, and `console.error`. -/
inductive Effect
  | queryCall (query sessionId : String)
  | uploadCall (filename sessionId : String)
  | newChatCall
  | alert (msg : String)
  | consoleError (msg : String)
  deriving DecidableEq

/-- Combined state of the `App` component (messages, sessionId, currentQuery) and
the `ChatInterface` component (query input text, the two in-flight flags, upload
notifications, uploading-file banner, status message and the pending status
timeouts scheduled by the `useEffect`). -/
structure AppState where
  sessionId : Option String
  currentQuery : String
  messages : List Message
  query : String
  isUploading : Bool
  isProcessingQuery : Bool
  uploadStatuses : List UploadStatus
  uploadingFile : Option String
  processingMessage : String
  pendingTimers : List (Nat × String)
  deriving DecidableEq

/-- Completion of a `POST /api/query/` call: a parsed envelope, or a rejected
fetch/json promise (network error). -/
inductive QueryOutcome
  | success (env : Envelope)
  | failure
  deriving DecidableEq

/-- Completion of a `POST /api/upload-pdf` call: the parsed `{message,
pages_extracted, chunks_created}` body, or a rejection (network error or a
non-2xx status, which `handleUploadPDF` turns into a throw). -/
inductive UploadOutcome
  | success (message : String) (pages chunks : Nat)
  | failure
  deriving DecidableEq

/-- Completion of a `POST /api/new_chat/` call. -/
inductive SessionOutcome
  | success (sessionId : String)
  | failure
  deriving DecidableEq

/-- Entering the `Submitting` state: `setIsProcessingQuery(true)` makes the
`useEffect` reset the status message and schedule the three status timeouts. -/
def beginSubmit (s : AppState) : AppState :=
  { s with isProcessingQuery := true, processingMessage := msgThinking,
           pendingTimers := statusTimers }

/-- Leaving the `Submitting` state: the `finally` runs `setIsProcessingQuery(false)`
and the `useEffect` cleanup clears the three timeouts. -/
def finishSubmit (s : AppState) : AppState :=
  { s with isProcessingQuery := false, pendingTimers := [] }

/-- Clock advance to `elapsed` milliseconds after the timers were scheduled: every
pending timeout whose delay has been reached fires (in scheduling order, each
setting the status message) and is removed from the pending list. -/
def fireDue (elapsed : Nat) (s : AppState) : AppState :=
  { s with
    processingMessage :=
      s.pendingTimers.foldl (fun acc t => if t.1 ≤ elapsed then t.2 else acc)
        s.processingMessage,
    pendingTimers := s.pendingTimers.filter (fun t => elapsed < t.1) }

/-- Message appended by the `catch` of `handleSubmitQuery`. -/
def mkErrorMessage (q : String) (now : Nat) : Message :=
  { id := toString now, query := q, response := some queryErrorWarning, timestamp := now }

/-- The `handleSubmitQuery` callback of App.tsx, with the completion of its fetch
passed in as `o` and the `Date.now()` reading as `now`.  Without a session it logs
and returns before any network call; otherwise it issues the query call and
appends exactly one message — the synthesized text on success, the fixed warning
when the fetch rejects or synthesis throws (both land in the `catch`). -/
def handleSubmitQuery (s : AppState) (q : String) (o : QueryOutcome) (now : Nat) :
    AppState × List Effect :=
  match s.sessionId with
  | none => (s, [Effect.consoleError noSessionError])
  | some sid =>
    let s1 := { s with currentQuery := q }
    match o with
    | QueryOutcome.failure =>
      ({ s1 with messages := s1.messages ++ [mkErrorMessage q now] },
       [Effect.queryCall q sid, Effect.consoleError "Error submitting query:"])
    | QueryOutcome.success env =>
      match synthesizeResponse env with
      | Except.ok txt =>
        ({ s1 with messages := s1.messages ++
            [{ id := toString now, query := q, response := txt, timestamp := now }] },
         [Effect.queryCall q sid])
      | Except.error _ =>
        ({ s1 with messages := s1.messages ++ [mkErrorMessage q now] },
         [Effect.queryCall q sid, Effect.consoleError "Error submitting query:"])

/-- JavaScript `String.prototype.trim` on the query text, modelled structurally
over the character list (whitespace per `Char.isWhitespace`) so that it is
kernel-computable; the guard only consults the trimmed text's truthiness, i.e.
whether any non-whitespace character is present. -/
def jsTrim (s : String) : String :=
  String.mk
    (((s.data.dropWhile Char.isWhitespace).reverse.dropWhile Char.isWhitespace).reverse)

/-- The `handleSubmit` of ChatInterface.tsx, run to completion as one event: the
guard `query.trim() && !isUploading && !isProcessingQuery`, then
`setIsProcessingQuery(true)`, `await onSubmitQuery(query)` (which never rejects),
`setQuery('')`, and the `finally` reset. -/
def handleSubmit (s : AppState) (o : QueryOutcome) (now : Nat) :
    AppState × List Effect :=
  if jsTrim s.query != "" && !s.isUploading && !s.isProcessingQuery then
    let r := handleSubmitQuery (beginSubmit s) s.query o now
    (finishSubmit { r.1 with query := "" }, r.2)
  else (s, [])

/-- Upload notification built on upload success. -/
def mkUploadStatus (name msg : String) (pages chunks now : Nat) : UploadStatus :=
  { id := toString now, filename := name, message := msg, pagesExtracted := pages,
    chunksCreated := chunks, timestamp := now }

/-- The `handleFileUpload` of ChatInterface.tsx composed with the `handleUploadPDF`
callback of App.tsx, run to completion as one event.  `sel` is the selected file
as (name, declared MIME type), `none` when no file was chosen.  A missing session
makes `handleUploadPDF` throw before any network call; a rejected upload lands in
the `catch` (alert); in both cases the `finally` clears the in-flight flag and the
uploading-file banner. -/
def handleFileUpload (s : AppState) (sel : Option (String × String))
    (o : UploadOutcome) (now : Nat) : AppState × List Effect :=
  match sel with
  | none => (s, [])
  | some (name, mime) =>
    if mime ≠ "application/pdf" then (s, [Effect.alert notPdfAlert])
    else
      match s.sessionId with
      | none =>
        ({ s with isUploading := false, uploadingFile := none },
         [Effect.alert uploadFailAlert])
      | some sid =>
        match o with
        | UploadOutcome.success msg pages chunks =>
          ({ s with isUploading := false, uploadingFile := none,
                    uploadStatuses := s.uploadStatuses ++
                      [mkUploadStatus name msg pages chunks now] },
           [Effect.uploadCall name sid])
        | UploadOutcome.failure =>
          ({ s with isUploading := false, uploadingFile := none },
           [Effect.uploadCall name sid, Effect.alert uploadFailAlert])

/-- The `createNewSession` of App.tsx: on success the fetched identifier replaces
the session; on failure the identifier is left as it was. -/
def createNewSession (s : AppState) (o : SessionOutcome) : AppState × List Effect :=
  match o with
  | SessionOutcome.success sid => ({ s with sessionId := some sid }, [Effect.newChatCall])
  | SessionOutcome.failure =>
    (s, [Effect.newChatCall, Effect.consoleError "Error creating session:"])

/-- The `handleNewChat` of App.tsx: clears the messages and the current query,
then awaits `createNewSession`. -/
def handleNewChat (s : AppState) (o : SessionOutcome) : AppState × List Effect :=
  createNewSession { s with messages := [], currentQuery := "" } o

/-- The `removeStatus` of ChatInterface.tsx: dismissal of one upload notification
by id, `prev.filter(status => status.id !== id)`. -/
def removeStatus (targetId : String) (l : List UploadStatus) : List UploadStatus :=
  l.filter (fun status => status.id != targetId)

/-- Events touching the upload-notification list: a completed upload (which
appends via `setUploadStatuses(prev => [...prev, newStatus])`) or a dismissal. -/
inductive UploadEvent
  | complete (u : UploadStatus)
  | dismiss (targetId : String)
  deriving DecidableEq

/-- One upload-list event, exactly as the two source mutations write the list. -/
def applyUploadEvent (l : List UploadStatus) : UploadEvent → List UploadStatus
  | UploadEvent.complete u => l ++ [u]
  | UploadEvent.dismiss i => removeStatus i l

/-- A sequence of upload-list events applied in order. -/
def applyUploadTrace (l : List UploadStatus) : List UploadEvent → List UploadStatus
  | [] => l
  | e :: es => applyUploadTrace (applyUploadEvent l e) es

/-- The uploads completed along a trace, in completion order. -/
def completions : List UploadEvent → List UploadStatus
  | [] => []
  | UploadEvent.complete u :: es => u :: completions es
  | UploadEvent.dismiss _ :: es => completions es

/-- The discriminant tags the dispatch of `handleSubmitQuery` recognizes. -/
def recognizedTags : List String :=
  ["full_pdf_summary", "page_summary", "concept_search", "serp_fallback", "error"]

/-- Sample idle state with a session present and a non-empty typed query. -/
def idleSessionState : AppState :=
  { sessionId := some "sess-1", currentQuery := "", messages := [],
    query := "what is ai", isUploading := false, isProcessingQuery := false,
    uploadStatuses := [], uploadingFile := none, processingMessage := msgThinking,
    pendingTimers := [] }

/-- Sample idle state with the session identifier absent and a typed query. -/
def absentSessionState : AppState :=
  { sessionId := none, currentQuery := "", messages := [], query := "hi",
    isUploading := false, isProcessingQuery := false, uploadStatuses := [],
    uploadingFile := none, processingMessage := msgThinking, pendingTimers := [] }

/-- Sample envelope with a recognized tag but the required `summaries` list absent. -/
def malformedEnvelope : Envelope :=
  { type := some "full_pdf_summary", summaries := none, expert_summary := none,
    core_keyword := none, results := none, serp_results := none,
    response := none, serialized := "raw" }

/-- Sample envelope with an unrecognized tag and a `response` field. -/
def unrecognizedEnvelope : Envelope :=
  { type := some "mystery", summaries := none, expert_summary := none,
    core_keyword := none, results := none, serp_results := none,
    response := some "hello", serialized := "raw" }

/-- Sample `error`-tagged envelope with a response text. -/
def errorEnvelope : Envelope :=
  { type := some "error", summaries := none, expert_summary := none,
    core_keyword := none, results := none, serp_results := none,
    response := some "the answer", serialized := "raw" }

/-- Sample upload notifications with pairwise distinct ids. -/
def sampleStatusA : UploadStatus :=
  { id := "1", filename := "a.pdf", message := "ok", pagesExtracted := 2,
    chunksCreated := 3, timestamp := 1 }

/-- Second sample upload notification. -/
def sampleStatusB : UploadStatus :=
  { id := "2", filename := "b.pdf", message := "ok", pagesExtracted := 5,
    chunksCreated := 8, timestamp := 2 }

/-- Third sample upload notification. -/
def sampleStatusC : UploadStatus :=
  { id := "3", filename := "c.pdf", message := "ok", pagesExtracted := 1,
    chunksCreated := 1, timestamp := 3 }

/-- Claim C6: for a serp_fallback envelope with expert summary E and core keyword
K whose serp result list is empty — or absent — the synthesized text is exactly
the expert-summary/core-keyword preamble followed by the literal no-results line,
and synthesis does not throw. -/
theorem serp_fallback_empty_no_results (E K ser : String) :
    synthesizeResponse
        { type := some "serp_fallback", summaries := none, expert_summary := some E,
          core_keyword := some K, results := none, serp_results := some [],
          response := none, serialized := ser }
      = Except.ok (some (serpPreamble E K ++ "No results found.")) ∧
    synthesizeResponse
        { type := some "serp_fallback", summaries := none, expert_summary := some E,
          core_keyword := some K, results := none, serp_results := none,
          response := none, serialized := ser }
      = Except.ok (some (serpPreamble E K ++ "No results found.")) :=
  ⟨rfl, rfl⟩

/-- Claim C5: a failed upload of a selected PDF file leaves every component of the
state untouched except that the in-flight flag and the uploading-file banner are
cleared; in particular the upload notifications and the messages are unchanged,
and the blocking alert is surfaced. -/
theorem upload_failure_alert_no_mutation (s : AppState) (name : String) (now : Nat) :
    (handleFileUpload s (some (name, "application/pdf")) UploadOutcome.failure now).1
        = { s with isUploading := false, uploadingFile := none } ∧
    (handleFileUpload s (some (name, "application/pdf")) UploadOutcome.failure now).1.messages
        = s.messages ∧
    (handleFileUpload s (some (name, "application/pdf")) UploadOutcome.failure now).1.uploadStatuses
        = s.uploadStatuses ∧
    Effect.alert uploadFailAlert
        ∈ (handleFileUpload s (some (name, "application/pdf")) UploadOutcome.failure now).2 := by
  cases h : s.sessionId <;> simp [handleFileUpload, h]

/-- Claim C3, counterexample: an envelope with the recognized tag
`full_pdf_summary` but no `summaries` list is malformed, yet synthesis does not
fall back to the raw payload — it throws (`data.summaries.map` on `undefined`). -/
theorem synthesize_malformed_throws_cex :
    synthesizeResponse malformedEnvelope
      = Except.error "TypeError: data.summaries is undefined" := rfl

/-- Claim C3, amended: for every envelope whose discriminant tag is absent or
unrecognized, synthesis falls back to the payload's `response` text when it is
present and non-empty, else to the payload's serialized form, and does not throw;
a recognized tag with its required list payload missing throws instead. -/
theorem synthesize_unrecognized_fallback (env : Envelope)
    (h : ∀ t ∈ recognizedTags, env.type ≠ some t) :
    synthesizeResponse env = Except.ok (some (rawFallback env)) := by
  have h1 := h "full_pdf_summary" (by simp [recognizedTags])
  have h2 := h "page_summary" (by simp [recognizedTags])
  have h3 := h "concept_search" (by simp [recognizedTags])
  have h4 := h "serp_fallback" (by simp [recognizedTags])
  have h5 := h "error" (by simp [recognizedTags])
  simp [synthesizeResponse, h1, h2, h3, h4, h5]

/-- Claim C3, witness for the amended theorem at a concrete unrecognized envelope. -/
theorem synthesize_unrecognized_fallback_witness :
    synthesizeResponse unrecognizedEnvelope = Except.ok (some "hello") :=
  synthesize_unrecognized_fallback unrecognizedEnvelope (by decide)

/-- Claim C2, counterexample: with the session identifier absent and every other
guard passing, a submit event does change the state — `setQuery('')` clears the
typed query text — so "no state change" fails on the session-absent guard. -/
theorem submit_no_session_state_change_cex :
    (handleSubmit absentSessionState QueryOutcome.failure 0).1 ≠ absentSessionState := by
  decide

/-- Claim C2, amended: a submit event issues no network call and appends nothing
to the message or upload-status sequences under any of the three guards; when the
query is empty/whitespace-only or an operation is in flight the state is entirely
unchanged, but when the session is absent the query input text is additionally
cleared (and the status display is reset by the transient flag toggle). -/
theorem submit_guards_amended (s : AppState) (o : QueryOutcome) (now : Nat) :
    (jsTrim s.query = "" ∨ s.isUploading = true ∨ s.isProcessingQuery = true →
      handleSubmit s o now = (s, [])) ∧
    (s.sessionId = none → jsTrim s.query ≠ "" → s.isUploading = false →
      s.isProcessingQuery = false →
      handleSubmit s o now =
        ({ s with query := "", processingMessage := msgThinking, pendingTimers := [] },
         [Effect.consoleError noSessionError])) := by
  obtain ⟨sid, cq, ms, q, iu, ip, us, uf, pm, pt⟩ := s
  constructor
  · rintro (h | h | h) <;> simp_all [handleSubmit]
  · rintro hs hq hu hp
    simp only at hs hu hp
    subst hs; subst hu; subst hp
    simp [handleSubmit, handleSubmitQuery, beginSubmit, finishSubmit, bne_iff_ne, hq]

/-- Claim C2, witness for the amended theorem: a whitespace-only query is a no-op,
and an absent-session submit only clears the query text. -/
theorem submit_guards_amended_witness :
    handleSubmit { absentSessionState with query := " " } QueryOutcome.failure 0
        = ({ absentSessionState with query := " " }, []) ∧
    handleSubmit absentSessionState QueryOutcome.failure 0
        = ({ absentSessionState with
              query := "", processingMessage := msgThinking, pendingTimers := [] },
           [Effect.consoleError noSessionError]) :=
  ⟨(submit_guards_amended _ QueryOutcome.failure 0).1 (Or.inl (by decide)),
   (submit_guards_amended _ QueryOutcome.failure 0).2 rfl (by decide) rfl rfl⟩

/-- Claim C1: with a non-whitespace query, a present session and no operation in
flight, a successful submit appends exactly one message whose query field is the
submitted text, and when synthesis of the envelope succeeds the appended
response is the synthesized text. -/
theorem submit_appends_exactly_one_message (s : AppState) (sid : String)
    (env : Envelope) (now : Nat)
    (hq : jsTrim s.query ≠ "") (hu : s.isUploading = false)
    (hp : s.isProcessingQuery = false) (hs : s.sessionId = some sid) :
    (∃ r, ((handleSubmit s (QueryOutcome.success env) now).1).messages
        = s.messages ++
          [{ id := toString now, query := s.query, response := r, timestamp := now }]) ∧
    (∀ t, synthesizeResponse env = Except.ok t →
      ((handleSubmit s (QueryOutcome.success env) now).1).messages
        = s.messages ++
          [{ id := toString now, query := s.query, response := t, timestamp := now }]) := by
  have hb : (jsTrim s.query != "" && !s.isUploading && !s.isProcessingQuery) = true := by
    simp [hu, hp, bne_iff_ne, hq]
  constructor
  · cases hsy : synthesizeResponse env with
    | ok t =>
      exact ⟨t, by
        simp [handleSubmit, hb, handleSubmitQuery, beginSubmit, finishSubmit, hs, hsy]⟩
    | error e =>
      exact ⟨some queryErrorWarning, by
        simp [handleSubmit, hb, handleSubmitQuery, beginSubmit, finishSubmit, hs, hsy,
          mkErrorMessage]⟩
  · intro t ht
    simp [handleSubmit, hb, handleSubmitQuery, beginSubmit, finishSubmit, hs, ht]

/-- Claim C1, witness at a concrete state and envelope. -/
theorem submit_appends_exactly_one_message_witness :
    ((handleSubmit idleSessionState (QueryOutcome.success errorEnvelope) 7).1).messages
      = idleSessionState.messages ++
        [{ id := toString 7, query := idleSessionState.query,
           response := some "the answer", timestamp := 7 }] :=
  (submit_appends_exactly_one_message idleSessionState "sess-1" errorEnvelope 7
      (by decide) rfl rfl rfl).2 (some "the answer") rfl

/-- Helper: any submit that passes the guards with a session present appends
exactly one message, whatever the outcome. -/
theorem submit_with_session_appends_length (s : AppState) (sid : String)
    (o : QueryOutcome) (now : Nat) (hq : jsTrim s.query ≠ "")
    (hu : s.isUploading = false) (hp : s.isProcessingQuery = false)
    (hs : s.sessionId = some sid) :
    ((handleSubmit s o now).1).messages.length = s.messages.length + 1 := by
  have hb : (jsTrim s.query != "" && !s.isUploading && !s.isProcessingQuery) = true := by
    simp [hu, hp, bne_iff_ne, hq]
  cases o with
  | failure => simp [handleSubmit, hb, handleSubmitQuery, beginSubmit, finishSubmit, hs]
  | success env =>
    cases hsy : synthesizeResponse env <;>
      simp [handleSubmit, hb, handleSubmitQuery, beginSubmit, finishSubmit, hs, hsy]

/-- Claim C4: a failed query submission appends exactly one message carrying the
fixed warning text, returns the lifecycle to Idle, and from the resulting state a
subsequent submission with any non-whitespace query is accepted (it appends
exactly one further message). -/
theorem query_failure_appends_warning_and_idle (s : AppState) (sid : String) (now : Nat)
    (hq : jsTrim s.query ≠ "") (hu : s.isUploading = false)
    (hp : s.isProcessingQuery = false) (hs : s.sessionId = some sid) :
    ((handleSubmit s QueryOutcome.failure now).1).messages
        = s.messages ++ [mkErrorMessage s.query now] ∧
    ((handleSubmit s QueryOutcome.failure now).1).isProcessingQuery = false ∧
    (∀ (q' : String) (o' : QueryOutcome) (now' : Nat), jsTrim q' ≠ "" →
      (((handleSubmit { (handleSubmit s QueryOutcome.failure now).1 with query := q' }
            o' now').1).messages).length
        = (((handleSubmit s QueryOutcome.failure now).1).messages).length + 1) := by
  have hb : (jsTrim s.query != "" && !s.isUploading && !s.isProcessingQuery) = true := by
    simp [hu, hp, bne_iff_ne, hq]
  refine ⟨?_, ?_, ?_⟩
  · simp [handleSubmit, hb, handleSubmitQuery, beginSubmit, finishSubmit, hs]
  · simp [handleSubmit, hb, handleSubmitQuery, beginSubmit, finishSubmit, hs]
  · intro q' o' now' hq'
    have hu' : ({ (handleSubmit s QueryOutcome.failure now).1 with
        query := q' }).isUploading = false := by
      simp [handleSubmit, hb, handleSubmitQuery, beginSubmit, finishSubmit, hs, hu, hq, hp]
    have hp' : ({ (handleSubmit s QueryOutcome.failure now).1 with
        query := q' }).isProcessingQuery = false := by
      simp [handleSubmit, hb, handleSubmitQuery, beginSubmit, finishSubmit, hs, hu, hq, hp]
    have hs' : ({ (handleSubmit s QueryOutcome.failure now).1 with
        query := q' }).sessionId = some sid := by
      simp [handleSubmit, hb, handleSubmitQuery, beginSubmit, finishSubmit, hs, hu, hq, hp]
    have hq'' : jsTrim ({ (handleSubmit s QueryOutcome.failure now).1 with
        query := q' }).query ≠ "" := by simpa using hq'
    have hlen := submit_with_session_appends_length _ sid o' now' hq'' hu' hp' hs'
    simpa using hlen

/-- Claim C4, witness at a concrete state. -/
theorem query_failure_appends_warning_and_idle_witness :
    ((handleSubmit idleSessionState QueryOutcome.failure 3).1).messages
      = idleSessionState.messages ++ [mkErrorMessage idleSessionState.query 3] :=
  (query_failure_appends_warning_and_idle idleSessionState "sess-1" 3
      (by decide) rfl rfl rfl).1

/-- Claim C7: new chat clears the conversation to empty, adopts the identifier
fetched by the new-session call — distinct from the superseded one whenever the
backend issues a fresh identifier, which is assumed as a hypothesis — and leaves
every existing upload notification untouched. -/
theorem new_chat_clears_messages_keeps_uploads (s : AppState) (sid : String)
    (hdiff : some sid ≠ s.sessionId) :
    ((handleNewChat s (SessionOutcome.success sid)).1).messages = [] ∧
    ((handleNewChat s (SessionOutcome.success sid)).1).sessionId = some sid ∧
    ((handleNewChat s (SessionOutcome.success sid)).1).sessionId ≠ s.sessionId ∧
    ((handleNewChat s (SessionOutcome.success sid)).1).uploadStatuses
        = s.uploadStatuses := by
  refine ⟨?_, ?_, ?_, ?_⟩ <;> simp [handleNewChat, createNewSession]
  exact hdiff

/-- Claim C7, witness at a concrete state. -/
theorem new_chat_clears_messages_keeps_uploads_witness :
    ((handleNewChat idleSessionState (SessionOutcome.success "sess-2")).1).messages = [] ∧
    ((handleNewChat idleSessionState (SessionOutcome.success "sess-2")).1).sessionId
        = some "sess-2" ∧
    ((handleNewChat idleSessionState (SessionOutcome.success "sess-2")).1).sessionId
        ≠ idleSessionState.sessionId ∧
    ((handleNewChat idleSessionState (SessionOutcome.success "sess-2")).1).uploadStatuses
        = idleSessionState.uploadStatuses :=
  new_chat_clears_messages_keeps_uploads idleSessionState "sess-2" (by decide)

/-- Claim C8: under unique ids, dismissing an upload notification by its id
removes exactly that entry and none other, for any position in the list. -/
theorem removeStatus_removes_exactly_target (l1 l2 : List UploadStatus)
    (st : UploadStatus)
    (h : ((l1 ++ st :: l2).map UploadStatus.id).Nodup) :
    removeStatus st.id (l1 ++ st :: l2) = l1 ++ l2 := by
  have hl1 : ∀ x ∈ l1, x.id ≠ st.id := by
    intro x hx hxe
    rw [List.map_append, List.nodup_append] at h
    exact h.2.2 (List.mem_map_of_mem _ hx) (by simp [hxe])
  have hl2 : ∀ x ∈ l2, x.id ≠ st.id := by
    intro x hx hxe
    rw [List.map_append, List.map_cons, List.nodup_append, List.nodup_cons] at h
    exact h.2.1.1 (by rw [← hxe]; exact List.mem_map_of_mem _ hx)
  unfold removeStatus
  rw [List.filter_append]
  have hself : ((fun status => status.id != st.id) st) = false := by simp
  have e1 : l1.filter (fun status => status.id != st.id) = l1 :=
    List.filter_eq_self.mpr (fun x hx => by simpa using hl1 x hx)
  have e2 : l2.filter (fun status => status.id != st.id) = l2 :=
    List.filter_eq_self.mpr (fun x hx => by simpa using hl2 x hx)
  simp [List.filter_cons, hself, e1, e2]

/-- Claim C8, witness: dismissing the middle entry of a three-entry list. -/
theorem removeStatus_removes_exactly_target_witness :
    removeStatus sampleStatusB.id ([sampleStatusA] ++ sampleStatusB :: [sampleStatusC])
      = [sampleStatusA] ++ [sampleStatusC] :=
  removeStatus_removes_exactly_target [sampleStatusA] [sampleStatusC] sampleStatusB
    (by decide)

/-- Claim C9: the status cycle is the fixed ordered timer sequence with strictly
increasing thresholds; entering Submitting resets the display and schedules it;
as elapsed time passes the thresholds the display steps through the four strings
in order; every completed submit event ends with the pending timers cleared
(or was rejected with the state untouched); and once no timer is pending, a
later clock advance changes nothing — no timer fires after resolution. -/
theorem status_cycle_cleared_on_resolve :
    List.Chain' (fun a b => a.1 < b.1) statusTimers ∧
    statusTimers.map Prod.snd = [msgSkimming, msgAlmostThere, msgHangTight] ∧
    (∀ s : AppState, (beginSubmit s).processingMessage = msgThinking ∧
      (beginSubmit s).pendingTimers = statusTimers) ∧
    (∀ s : AppState,
      (fireDue 29999 (beginSubmit s)).processingMessage = msgThinking ∧
      (fireDue 30000 (beginSubmit s)).processingMessage = msgSkimming ∧
      (fireDue 90000 (beginSubmit s)).processingMessage = msgAlmostThere ∧
      (fireDue 210000 (beginSubmit s)).processingMessage = msgHangTight) ∧
    (∀ (s : AppState) (o : QueryOutcome) (now : Nat),
      ((handleSubmit s o now).1).pendingTimers = [] ∨ handleSubmit s o now = (s, [])) ∧
    (∀ (s : AppState) (e : Nat), s.pendingTimers = [] → fireDue e s = s) := by
  refine ⟨?_, rfl, fun s => ⟨rfl, rfl⟩, fun s => ⟨rfl, rfl, rfl, rfl⟩, ?_, ?_⟩
  · simp [statusTimers, List.chain'_cons]
  · intro s o now
    by_cases h : (jsTrim s.query != "" && !s.isUploading && !s.isProcessingQuery) = true
    · left
      simp [handleSubmit, h, finishSubmit]
    · right
      simp only [Bool.not_eq_true] at h
      simp [handleSubmit, h]
  · intro s e hpt
    obtain ⟨sid, cq, ms, q, iu, ip, us, uf, pm, pt⟩ := s
    simp only at hpt
    subst hpt
    rfl

/-- Claim C9, witness: with no pending timer, a clock advance changes nothing. -/
theorem status_cycle_cleared_on_resolve_witness :
    fireDue 999 idleSessionState = idleSessionState :=
  status_cycle_cleared_on_resolve.2.2.2.2.2 idleSessionState 999 rfl

/-- Helper for C10: a trace of upload-list events applied to any start list stays
a sublist of the start list followed by the completions in order. -/
theorem applyUploadTrace_sublist_aux :
    ∀ (evs : List UploadEvent) (l : List UploadStatus),
      (applyUploadTrace l evs).Sublist (l ++ completions evs)
  | [], l => by simp [applyUploadTrace, completions]
  | UploadEvent.complete u :: es, l => by
    have ih := applyUploadTrace_sublist_aux es (l ++ [u])
    simpa [applyUploadTrace, applyUploadEvent, completions] using ih
  | UploadEvent.dismiss i :: es, l => by
    have ih := applyUploadTrace_sublist_aux es (removeStatus i l)
    refine ih.trans (List.Sublist.append_right ?_ _)
    exact List.filter_sublist l

/-- Claim C10: a successful upload appends its notification exactly at the end of
the list, and consequently over any sequence of completions and dismissals the
notification list is ordered by completion order — it is a sublist of the
completed uploads in order. -/
theorem upload_appends_in_completion_order :
    (∀ (s : AppState) (name msg sid : String) (pages chunks now : Nat),
      s.sessionId = some sid →
      ((handleFileUpload s (some (name, "application/pdf"))
          (UploadOutcome.success msg pages chunks) now).1).uploadStatuses
        = s.uploadStatuses ++ [mkUploadStatus name msg pages chunks now]) ∧
    (∀ evs : List UploadEvent, (applyUploadTrace [] evs).Sublist (completions evs)) := by
  constructor
  · intro s name msg sid pages chunks now hs
    simp [handleFileUpload, hs]
  · intro evs
    simpa using applyUploadTrace_sublist_aux evs []

/-- Claim C10, witness: a concrete successful upload appends at the end. -/
theorem upload_appends_in_completion_order_witness :
    ((handleFileUpload idleSessionState (some ("notes.pdf", "application/pdf"))
        (UploadOutcome.success "ok" 4 9) 11).1).uploadStatuses
      = idleSessionState.uploadStatuses ++ [mkUploadStatus "notes.pdf" "ok" 4 9 11] :=
  upload_appends_in_completion_order.1 idleSessionState "notes.pdf" "ok" "sess-1" 4 9 11 rfl

end StudyBuddy
